import Mathlib

/-!
Verification of the careerstack repository's routing, agent and upload logic.

The Python sources are shallowly embedded:
* strings are Lean `String` / `List Char`; Python's substring test `k in q`
  becomes `containsSub`;
* Python dict-shaped agent responses become small inductive types carrying the
  fields the code reads;
* network / LLM / filesystem effects are oracles passed as function arguments;
  a raised Python exception is the `.error` constructor of `Except Exn`.
-/

namespace CareerStack

/-- A raised Python exception.  `process_query` distinguishes `KeyError` from
every other exception class, so the embedding keeps that distinction. -/
inductive Exn where
  | keyError (arg : String)
  | other (msg : String)
deriving DecidableEq, Repr

/-- Python `str(e)`.  For `KeyError(arg)` Python prints the repr of the
argument, i.e. the argument in single quotes; for other exceptions the
message itself. -/
def strExn : Exn → String
  | .keyError a => "'" ++ a ++ "'"
  | .other m => m

/-! ## Strings: lower-casing and substring containment

`_classify_intent` does `query.lower()` and then `keyword in query`.
Queries are modelled as `List Char`; `pyLower` is ASCII lower-casing
(all keywords in the source tables are ASCII). -/

/-- ASCII lower-casing of one character, as Python `str.lower` acts on
ASCII letters. -/
def pyLower (c : Char) : Char :=
  if 'A' ≤ c ∧ c ≤ 'Z' then Char.ofNat (c.toNat + 32) else c

/-- Boolean prefix test on character lists. -/
def isPrefixOfCL : List Char → List Char → Bool
  | [], _ => true
  | _ :: _, [] => false
  | a :: as, b :: bs => a == b && isPrefixOfCL as bs

/-- Boolean substring test: Python's `needle in hay`. -/
def containsSub (needle : List Char) : List Char → Bool
  | [] => isPrefixOfCL needle []
  | b :: bs => isPrefixOfCL needle (b :: bs) || containsSub needle bs

/-- The semantic notion of substring occurrence. -/
def occursIn (needle hay : List Char) : Prop :=
  ∃ pre post, hay = pre ++ needle ++ post

theorem isPrefixOfCL_iff (n : List Char) :
    ∀ h : List Char, isPrefixOfCL n h = true ↔ ∃ post, h = n ++ post := by
  induction n with
  | nil =>
    intro h
    simp [isPrefixOfCL]
  | cons a as ih =>
    intro h
    cases h with
    | nil =>
      simp [isPrefixOfCL]
    | cons b bs =>
      simp only [isPrefixOfCL, Bool.and_eq_true, beq_iff_eq, ih bs,
        List.cons_append, List.cons.injEq]
      constructor
      · rintro ⟨rfl, post, rfl⟩
        exact ⟨post, rfl, rfl⟩
      · rintro ⟨post, rfl, rfl⟩
        exact ⟨rfl, post, rfl⟩

theorem containsSub_iff (n : List Char) :
    ∀ h : List Char, containsSub n h = true ↔ occursIn n h := by
  intro h
  induction h with
  | nil =>
    simp only [containsSub, isPrefixOfCL_iff, occursIn]
    constructor
    · rintro ⟨post, hpost⟩
      exact ⟨[], post, by simpa using hpost⟩
    · rintro ⟨pre, post, hp⟩
      have h := hp.symm
      simp only [List.append_eq_nil] at h
      exact ⟨[], by simp [h.1.2]⟩
  | cons b bs ih =>
    simp only [containsSub, Bool.or_eq_true, isPrefixOfCL_iff, ih, occursIn]
    constructor
    · rintro (⟨post, hpost⟩ | ⟨pre, post, hpp⟩)
      · exact ⟨[], post, by simpa using hpost⟩
      · exact ⟨b :: pre, post, by simp [hpp]⟩
    · rintro ⟨pre, post, hpp⟩
      cases pre with
      | nil =>
        exact Or.inl ⟨post, by simpa using hpp⟩
      | cons p ps =>
        have h := hpp
        simp only [List.cons_append] at h
        injection h with h1 h2
        exact Or.inr ⟨ps, post, h2⟩

instance occursIn.decidable (n h : List Char) : Decidable (occursIn n h) :=
  decidable_of_iff (containsSub n h = true) (containsSub_iff n h)

/-! ## `_classify_intent` (src/agents/supervisor.py) -/

/-- The keyword table of `_classify_intent`, in the source's dict order:
job_search, cover_letter, resume, research. -/
def intentsMapping : List (String × List String) :=
  [("job_search", ["job", "position", "career", "opportunity", "roles"]),
   ("cover_letter", ["cover letter", "application", "recommendation", "letter"]),
   ("resume", ["resume", "cv", "skill", "experience", "profile"]),
   ("research", ["research", "information", "learn", "find out", "details"])]

/-- `query.lower()` applied to the raw query. -/
def lowerQuery (query : String) : List Char :=
  query.data.map pyLower

/-- The `for intent, keywords in intents_mapping.items(): if any(...)` loop. -/
def classifyLoop : List (String × List String) → List Char → String
  | [], _ => "unknown"
  | (intent, keywords) :: rest, q =>
      if keywords.any (fun k => containsSub k.data q) then intent
      else classifyLoop rest q

/-- `JobAssistantSupervisor._classify_intent`. -/
def classifyIntent (query : String) : String :=
  classifyLoop intentsMapping (lowerQuery query)

/-- Some keyword of the intent row `p` occurs in the (lowered) query `L`. -/
def intentMatches (p : String × List String) (L : List Char) : Prop :=
  ∃ k ∈ p.2, occursIn k.data L

instance intentMatches.decidable (p : String × List String) (L : List Char) :
    Decidable (intentMatches p L) := by
  unfold intentMatches
  infer_instance

theorem intentMatches_iff_any (p : String × List String) (L : List Char) :
    p.2.any (fun k => containsSub k.data L) = true ↔ intentMatches p L := by
  simp only [List.any_eq_true, intentMatches]
  constructor
  · rintro ⟨k, hk, hc⟩
    exact ⟨k, hk, (containsSub_iff _ _).mp hc⟩
  · rintro ⟨k, hk, ho⟩
    exact ⟨k, hk, (containsSub_iff _ _).mpr ho⟩

theorem classifyLoop_no_match (L : List Char) :
    ∀ tbl : List (String × List String),
      (∀ p ∈ tbl, ¬ intentMatches p L) → classifyLoop tbl L = "unknown" := by
  intro tbl
  induction tbl with
  | nil => intro _; rfl
  | cons p rest ih =>
    intro hnone
    obtain ⟨intent, keywords⟩ := p
    have hnp : ¬ intentMatches (intent, keywords) L :=
      hnone _ (List.mem_cons_self _ _)
    have hany : keywords.any (fun k => containsSub k.data L) = false := by
      rw [← Bool.not_eq_true]
      intro htrue
      exact hnp ((intentMatches_iff_any (intent, keywords) L).mp htrue)
    simp only [classifyLoop, hany, Bool.false_eq_true, if_false]
    exact ih (fun q hq => hnone q (List.mem_cons_of_mem _ hq))

theorem classifyLoop_first (L : List Char) (p : String × List String) :
    ∀ pre post, intentMatches p L →
      (∀ q ∈ pre, ¬ intentMatches q L) →
      classifyLoop (pre ++ p :: post) L = p.1 := by
  intro pre
  induction pre with
  | nil =>
    intro post hm _
    obtain ⟨intent, keywords⟩ := p
    have hany : keywords.any (fun k => containsSub k.data L) = true :=
      (intentMatches_iff_any (intent, keywords) L).mpr hm
    simp [classifyLoop, hany]
  | cons q rest ih =>
    intro post hm hpre
    obtain ⟨qi, qk⟩ := q
    have hnq : ¬ intentMatches (qi, qk) L := hpre _ (List.mem_cons_self _ _)
    have hany : qk.any (fun k => containsSub k.data L) = false := by
      rw [← Bool.not_eq_true]
      intro htrue
      exact hnq ((intentMatches_iff_any (qi, qk) L).mp htrue)
    simp only [List.cons_append, classifyLoop, hany, Bool.false_eq_true, if_false]
    exact ih post hm (fun r hr => hpre r (List.mem_cons_of_mem _ hr))

theorem intentsMapping_names_nodup : (intentsMapping.map Prod.fst).Nodup := by
  decide

/-- **C1.** `_classify_intent` lower-cases the query and scans the table
{job_search, cover_letter, resume, research} in order: with no keyword in the
query it answers "unknown"; with keywords of exactly one intent it answers
that intent; in general the first intent (in table order) with a matching
keyword wins. -/
theorem classify_intent_table_semantics (query : String) :
    ((∀ p ∈ intentsMapping, ¬ intentMatches p (lowerQuery query)) →
        classifyIntent query = "unknown")
    ∧ (∀ p ∈ intentsMapping, intentMatches p (lowerQuery query) →
        (∀ q ∈ intentsMapping, q.1 ≠ p.1 → ¬ intentMatches q (lowerQuery query)) →
        classifyIntent query = p.1)
    ∧ (∀ pre p post, intentsMapping = pre ++ p :: post →
        intentMatches p (lowerQuery query) →
        (∀ q ∈ pre, ¬ intentMatches q (lowerQuery query)) →
        classifyIntent query = p.1) := by
  refine ⟨?_, ?_, ?_⟩
  · intro hnone
    exact classifyLoop_no_match _ _ hnone
  · intro p hp hm hothers
    obtain ⟨pre, post, hsplit⟩ := List.append_of_mem hp
    have hnodup : ((pre ++ p :: post).map Prod.fst).Nodup := by
      rw [← hsplit]; exact intentsMapping_names_nodup
    have hnotin : p.1 ∉ pre.map Prod.fst := by
      intro hin
      rw [List.map_append, List.map_cons, List.nodup_append] at hnodup
      exact hnodup.2.2 hin (List.mem_cons_self _ _)
    have hpre : ∀ q ∈ pre, ¬ intentMatches q (lowerQuery query) := by
      intro q hq
      refine hothers q (hsplit ▸ List.mem_append_left _ hq) ?_
      intro heq
      exact hnotin (heq ▸ List.mem_map_of_mem Prod.fst hq)
    unfold classifyIntent
    rw [hsplit]
    exact classifyLoop_first _ p pre post hm hpre
  · intro pre p post hsplit hm hpre
    unfold classifyIntent
    rw [hsplit]
    exact classifyLoop_first _ p pre post hm hpre

/-- Witness for C1 at the query "find me a job": only the job_search row
matches, and the classifier answers "job_search". -/
theorem classify_intent_table_semantics_witness :
    classifyIntent "find me a job" = "job_search" := by
  refine (classify_intent_table_semantics "find me a job").2.1
    ("job_search", ["job", "position", "career", "opportunity", "roles"])
    (by decide) ?_ ?_
  · exact ⟨"job", by decide, by decide⟩
  · decide

/-! ## Agent responses and `_format_response` (src/agents/supervisor.py) -/

/-- A job listing dict as built by `JobSearchAgent.process` and read by
`_format_response` for the job_search intent: keys `title`, `company`,
`location`, `match_score`, `requirements`, `url`, `description`.
`match_score` is rendered with `:.0f`, so the embedding keeps it
integral. -/
structure JobListing where
  title : String
  company : String
  location : String
  match_score : Int
  requirements : List String
  url : String := ""
  description : String := ""
deriving DecidableEq, Repr

/-- The dict shapes of an agent response that `_format_response` reads.
`errorResp` is any dict with `status == "error"` (with its optional
`message`); `jobResults` carries `results.listings`; `coverLetter` the
optional `content`; `resumePairs` the items of a plain dict; `otherResp`
any other value, remembered by its `str()`. -/
inductive AgentResp where
  | errorResp (message : Option String)
  | jobResults (listings : List JobListing)
  | coverLetter (content : Option String)
  | resumePairs (pairs : List (String × String))
  | otherResp (s : String)
deriving DecidableEq, Repr

/-- `response.get("results", {}).get("listings", [])`. -/
def getListings : AgentResp → List JobListing
  | .jobResults l => l
  | _ => []

/-- `response.get("content", "No cover letter content generated.")`. -/
def getContent : AgentResp → String
  | .coverLetter (some c) => c
  | _ => "No cover letter content generated."

/-- `"\n".join(f"{k}: {v}" for k, v in response.items())`. -/
def itemsJoined : AgentResp → String
  | .resumePairs ps => String.intercalate "\n" (ps.map fun kv => kv.1 ++ ": " ++ kv.2)
  | r => reprStr r

/-- The f-string block built per job in the job_search branch. -/
def formatJobBlock (job : JobListing) : String :=
  "Position: " ++ job.title ++ "\n" ++
  "Company: " ++ job.company ++ "\n" ++
  "Location: " ++ job.location ++ "\n" ++
  "Match Score: " ++ toString job.match_score ++ "%\n" ++
  "Requirements: " ++ String.intercalate ", " job.requirements ++ "\n---"

/-- `JobAssistantSupervisor._format_response`. -/
def formatResponse (intent : String) (response : AgentResp) : String :=
  match response with
  | .errorResp message => message.getD "An error occurred."
  | r =>
    if intent == "job_search" then
      let listings := getListings r
      if listings.isEmpty then "No job listings found."
      else String.intercalate "\n\n" (listings.map formatJobBlock)
    else if intent == "cover_letter" then getContent r
    else if intent == "resume" then itemsJoined r
    else reprStr r

/-! ## `process_query` dispatch (src/agents/supervisor.py)

The supervisor's registered agents and the web-research class are external
effects; an `AgentOracle` gives their outcomes.  `process_query` also
returns the list of agent invocations it performed, so that "no agent is
called" is expressible. -/

/-- One invocation of a registered agent's `process` (or, for
`web_researcher`, one instantiation plus `run_research()`). -/
structure AgentCall where
  agent : String
  query : String
  resume_path : Option String
deriving DecidableEq, Repr

/-- The dict returned by `process_query`. -/
structure PQResult where
  intent : String
  response : String
  agent : Option String
  error : Option String
deriving DecidableEq, Repr

/-- Outcomes of the external agents.  `process key query rp` is the result
of `self.agents[key].process(query, resume_path=rp)`; `research q` is
`ScrapyWebResearchAgent(q).run_research()` (its payload rendered as a
string).  An `Except.error` is a raised Python exception anywhere inside
the `try:` of `process_query` after dispatch, including a `KeyError`
raised while formatting. -/
structure AgentOracle where
  process : String → String → Option String → Except Exn AgentResp
  research : String → Except Exn String

/-- The keys of the dict built by `_register_agents`. -/
def registeredAgents : List String :=
  ["job_search", "resume_analyzer", "cover_letter", "web_researcher"]

/-- The envelope of the `except KeyError` handler of `process_query`. -/
def keyErrorEnvelope (intent : String) : PQResult :=
  { intent := intent, response := "Agent not available.",
    agent := none, error := some "Agent missing." }

/-- The envelope of the generic `except Exception as e` handler. -/
def genericErrorEnvelope (intent : String) (e : Exn) : PQResult :=
  { intent := intent, response := "An error occurred.",
    agent := none, error := some (strExn e) }

/-- `_process_with_agent` after the `self.agents[intent]` lookup succeeded,
together with the enclosing handlers of `process_query`: the agent's
outcome is formatted on success; a raised `KeyError` (from the agent or
from formatting) lands in the KeyError handler, anything else in the
generic handler. -/
def dispatchRegistered (O : AgentOracle) (intent query : String) (rp : Option String) :
    PQResult × List AgentCall :=
  match O.process intent query rp with
  | .ok resp =>
      ({ intent := intent, response := formatResponse intent resp,
         agent := some (intent.capitalize ++ "Agent"), error := none },
       [⟨intent, query, rp⟩])
  | .error (.keyError _) => (keyErrorEnvelope intent, [⟨intent, query, rp⟩])
  | .error e => (genericErrorEnvelope intent e, [⟨intent, query, rp⟩])

/-- `JobAssistantSupervisor.process_query`, with the supervisor's
`self.resume_path` passed explicitly.  The unknown branch returns before
any agent is touched; the dispatch branch looks `intent` up in
`self.agents` (`KeyError` when the key is absent, landing in the KeyError
handler) and forwards `(query, resume_path)` — the path only for
job_search and cover_letter. -/
def process_query (O : AgentOracle) (resume_path : Option String) (query : String) :
    PQResult × List AgentCall :=
  let intent := classifyIntent query
  if intent == "research" then
    match O.research query with
    | .ok results =>
        ({ intent := intent, response := results,
           agent := some "ScrapyWebResearchAgent", error := none },
         [⟨"web_researcher", query, none⟩])
    | .error (.keyError _) => (keyErrorEnvelope intent, [⟨"web_researcher", query, none⟩])
    | .error e => (genericErrorEnvelope intent e, [⟨"web_researcher", query, none⟩])
  else if intent == "unknown" then
    ({ intent := "unknown", response := "Please clarify your query.",
       agent := none, error := none }, [])
  else if registeredAgents.contains intent then
    dispatchRegistered O intent query
      (if intent == "job_search" || intent == "cover_letter" then resume_path else none)
  else
    (keyErrorEnvelope intent, [])

/-- An oracle whose agents always succeed with an opaque response. -/
def okOracle : AgentOracle :=
  { process := fun _ _ _ => .ok (.otherResp "ok"), research := fun _ => .ok "ok" }

/-- An oracle whose agents always raise `KeyError("title")` (as formatting a
listing dict without a `title` key would). -/
def keyErrOracle : AgentOracle :=
  { process := fun _ _ _ => .error (.keyError "title"), research := fun _ => .ok "ok" }

/-- An oracle whose agents always raise `Exception("boom")`. -/
def boomOracle : AgentOracle :=
  { process := fun _ _ _ => .error (.other "boom"), research := fun _ => .ok "ok" }

theorem process_query_eq_dispatch_job_search (O : AgentOracle) (rp : Option String)
    (query : String) (h : classifyIntent query = "job_search") :
    process_query O rp query = dispatchRegistered O "job_search" query rp := by
  unfold process_query
  rw [h]
  rfl

theorem process_query_eq_dispatch_cover_letter (O : AgentOracle) (rp : Option String)
    (query : String) (h : classifyIntent query = "cover_letter") :
    process_query O rp query = dispatchRegistered O "cover_letter" query rp := by
  unfold process_query
  rw [h]
  rfl

theorem dispatchRegistered_calls (O : AgentOracle) (intent query : String)
    (rp : Option String) :
    (dispatchRegistered O intent query rp).2 = [⟨intent, query, rp⟩] := by
  unfold dispatchRegistered
  cases O.process intent query rp with
  | ok resp => rfl
  | error e => cases e <;> rfl

/-- **C8.** A query classified "unknown" short-circuits: `process_query`
returns the fixed clarification envelope and performs no agent call at
all (no registered agent's `process`, no web-research instantiation). -/
theorem unknown_intent_short_circuits (O : AgentOracle) (rp : Option String)
    (query : String) (h : classifyIntent query = "unknown") :
    process_query O rp query =
      ({ intent := "unknown", response := "Please clarify your query.",
         agent := none, error := none }, []) := by
  unfold process_query
  rw [h]
  rfl

/-- Witness for C8 at the keyword-free query "hello": classified "unknown",
clarification envelope, empty call list. -/
theorem unknown_intent_short_circuits_witness :
    process_query okOracle none "hello" =
      ({ intent := "unknown", response := "Please clarify your query.",
         agent := none, error := none }, []) :=
  unknown_intent_short_circuits okOracle none "hello" (by decide)

/-- **C3 (amended).** For a query classified "job_search" or "cover_letter",
`process_query` forwards `(query, resume_path)` to the registered agent of
that name — exactly one call, carrying the supervisor's resume path.  For a
query classified "resume" no agent is called: the registered key is
"resume_analyzer", so `self.agents["resume"]` raises `KeyError` and
`process_query` returns the agent-missing envelope with an empty call
list. -/
theorem dispatch_forwards_query_and_resume_path (O : AgentOracle) (rp : Option String)
    (query : String) :
    (∀ i, classifyIntent query = i → i = "job_search" ∨ i = "cover_letter" →
        (process_query O rp query).2 = [⟨i, query, rp⟩])
    ∧ (classifyIntent query = "resume" →
        process_query O rp query = (keyErrorEnvelope "resume", [])) := by
  constructor
  · rintro i hi (rfl | rfl)
    · rw [process_query_eq_dispatch_job_search O rp query hi]
      exact dispatchRegistered_calls O "job_search" query rp
    · rw [process_query_eq_dispatch_cover_letter O rp query hi]
      exact dispatchRegistered_calls O "cover_letter" query rp
  · intro h
    unfold process_query
    rw [h]
    rfl

/-- Witness for C3 at "find me a job" with a resume path set: the single
recorded call goes to the job_search agent with the query and that path. -/
theorem dispatch_forwards_query_and_resume_path_witness :
    (process_query okOracle (some "uploads/resume.pdf") "find me a job").2 =
      [⟨"job_search", "find me a job", some "uploads/resume.pdf"⟩] :=
  (dispatch_forwards_query_and_resume_path okOracle (some "uploads/resume.pdf")
      "find me a job").1 "job_search" (by decide) (Or.inl rfl)

/-- Counterexample for C3 as stated: "improve my resume" is classified
"resume", yet no agent receives it — even with an oracle whose agents all
succeed, `process_query` returns the KeyError envelope and an empty call
list, because no agent is registered under the key "resume". -/
theorem dispatch_resume_intent_counterexample :
    process_query okOracle (some "uploads/resume.pdf") "improve my resume" =
      (keyErrorEnvelope "resume", []) := by
  decide

/-- **C4 (amended).** `process_query` never lets an agent exception escape:
an exception that is not a `KeyError` is converted to
`{intent, response: "An error occurred.", error: str(e), agent: None}`,
while a `KeyError` (whether from the missing-agent lookup or raised by the
dispatched agent/formatting) is converted to the fixed envelope
`{intent, response: "Agent not available.", error: "Agent missing.",
agent: None}` — in that case the error field is not the stringified
exception. -/
theorem agent_exception_envelopes (O : AgentOracle) (rp : Option String)
    (query i : String) (hi : classifyIntent query = i)
    (hd : i = "job_search" ∨ i = "cover_letter") :
    (∀ m, O.process i query rp = .error (.other m) →
        process_query O rp query =
          ({ intent := i, response := "An error occurred.",
             agent := none, error := some m }, [⟨i, query, rp⟩]))
    ∧ (∀ a, O.process i query rp = .error (.keyError a) →
        process_query O rp query = (keyErrorEnvelope i, [⟨i, query, rp⟩])) := by
  have hdisp : process_query O rp query = dispatchRegistered O i query rp := by
    rcases hd with rfl | rfl
    · exact process_query_eq_dispatch_job_search O rp query hi
    · exact process_query_eq_dispatch_cover_letter O rp query hi
  constructor
  · intro m hm
    rw [hdisp]
    unfold dispatchRegistered
    rw [hm]
    rfl
  · intro a ha
    rw [hdisp]
    unfold dispatchRegistered
    rw [ha]

/-- Witness for C4: an agent failure `Exception("boom")` on "find me a job"
yields the generic envelope with the stringified exception. -/
theorem agent_exception_envelopes_witness :
    process_query boomOracle (some "uploads/resume.pdf") "find me a job" =
      ({ intent := "job_search", response := "An error occurred.",
         agent := none, error := some "boom" },
       [⟨"job_search", "find me a job", some "uploads/resume.pdf"⟩]) :=
  (agent_exception_envelopes boomOracle (some "uploads/resume.pdf")
      "find me a job" "job_search" (by decide) (Or.inl rfl)).1 "boom" rfl

/-- Counterexample for C4 as stated: when the dispatched agent raises
`KeyError("title")`, the returned error field is the fixed string
"Agent missing.", not the stringified exception `str(KeyError("title"))`
= "'title'". -/
theorem agent_keyerror_not_stringified :
    (process_query keyErrOracle (some "uploads/resume.pdf") "find me a job").1.error
        = some "Agent missing."
    ∧ strExn (.keyError "title") = "'title'"
    ∧ (some "Agent missing." : Option String) ≠ some (strExn (.keyError "title")) := by
  refine ⟨by decide, rfl, by decide⟩

/-! ## `_match_jobs_to_analysis` (src/agents/job_search.py)

The per-job LLM call and the split-based parse of its output are the
oracle `llmMatch`; a raised exception means the listing is skipped
(`except ...: continue`).  The collected list is then
`sorted(matched_jobs, key=lambda x: x.match_score, reverse=True)`:
Python's sort is stable and `reverse=True` keeps equal keys in source
order, so the output is the unique permutation of the input with
non-increasing scores and equal-score elements in source order —
`sortScoreDesc` computes it. -/

/-- A raw job dict as returned by the listing sources. -/
structure RawJob where
  title : String
  company : String
  location : String
  url : String
  description : String
  posted_date : String
deriving DecidableEq, Repr

/-- The `JobSearchResult` pydantic model of src/agents/job_search.py. -/
structure JobSearchResult where
  title : String
  company : String
  location : String
  match_score : Int
  url : String
  description : String
  posted_date : String
  skill_matches : List String
  missing_skills : List String
deriving DecidableEq, Repr

/-- The `for job in jobs:` loop body of `_match_jobs_to_analysis`: on a
successful LLM match the `JobSearchResult` is appended, on any exception
the job is skipped. -/
def matchedLoop (jobs : List RawJob)
    (llmMatch : RawJob → Except Exn (Int × List String × List String)) :
    List JobSearchResult :=
  jobs.filterMap fun job =>
    match llmMatch job with
    | .ok (score, matching, missing) =>
        some { title := job.title, company := job.company, location := job.location,
               match_score := score, url := job.url, description := job.description,
               posted_date := job.posted_date, skill_matches := matching,
               missing_skills := missing }
    | .error _ => none

/-- Stable descending insertion: the inserted element goes in front of the
first element whose score does not exceed it. -/
def insertScoreDesc (x : JobSearchResult) :
    List JobSearchResult → List JobSearchResult
  | [] => [x]
  | y :: ys =>
      if y.match_score ≤ x.match_score then x :: y :: ys
      else y :: insertScoreDesc x ys

/-- `sorted(·, key=lambda x: x.match_score, reverse=True)`. -/
def sortScoreDesc : List JobSearchResult → List JobSearchResult
  | [] => []
  | x :: xs => insertScoreDesc x (sortScoreDesc xs)

/-- `JobSearchAgent._match_jobs_to_analysis`. -/
def _match_jobs_to_analysis (jobs : List RawJob)
    (llmMatch : RawJob → Except Exn (Int × List String × List String)) :
    List JobSearchResult :=
  sortScoreDesc (matchedLoop jobs llmMatch)

theorem insertScoreDesc_perm (x : JobSearchResult) (l : List JobSearchResult) :
    (insertScoreDesc x l).Perm (x :: l) := by
  induction l with
  | nil => exact List.Perm.refl _
  | cons y ys ih =>
    unfold insertScoreDesc
    by_cases h : y.match_score ≤ x.match_score
    · rw [if_pos h]
    · rw [if_neg h]
      exact (ih.cons y).trans (List.Perm.swap x y ys)

theorem sortScoreDesc_perm (l : List JobSearchResult) :
    (sortScoreDesc l).Perm l := by
  induction l with
  | nil => exact List.Perm.refl _
  | cons x xs ih =>
    exact (insertScoreDesc_perm x (sortScoreDesc xs)).trans (ih.cons x)

theorem insertScoreDesc_pairwise (x : JobSearchResult) (l : List JobSearchResult)
    (hl : l.Pairwise (fun a b => b.match_score ≤ a.match_score)) :
    (insertScoreDesc x l).Pairwise (fun a b => b.match_score ≤ a.match_score) := by
  induction l with
  | nil => simp [insertScoreDesc]
  | cons y ys ih =>
    rcases List.pairwise_cons.mp hl with ⟨hy, hys⟩
    unfold insertScoreDesc
    by_cases h : y.match_score ≤ x.match_score
    · rw [if_pos h]
      refine List.pairwise_cons.mpr ⟨?_, hl⟩
      intro z hz
      rcases List.mem_cons.mp hz with rfl | hz'
      · exact h
      · exact le_trans (hy z hz') h
    · rw [if_neg h]
      refine List.pairwise_cons.mpr ⟨?_, ih hys⟩
      intro z hz
      have hz' : z ∈ x :: ys := (insertScoreDesc_perm x ys).mem_iff.mp hz
      rcases List.mem_cons.mp hz' with rfl | hz''
      · exact le_of_not_le h
      · exact hy z hz''

theorem sortScoreDesc_pairwise (l : List JobSearchResult) :
    (sortScoreDesc l).Pairwise (fun a b => b.match_score ≤ a.match_score) := by
  induction l with
  | nil => exact List.Pairwise.nil
  | cons x xs ih => exact insertScoreDesc_pairwise x (sortScoreDesc xs) ih

theorem insertScoreDesc_filter (x : JobSearchResult) (l : List JobSearchResult)
    (s : Int) :
    (insertScoreDesc x l).filter (fun r => r.match_score == s)
      = (x :: l).filter (fun r => r.match_score == s) := by
  induction l with
  | nil => rfl
  | cons y ys ih =>
    unfold insertScoreDesc
    by_cases h : y.match_score ≤ x.match_score
    · rw [if_pos h]
    · rw [if_neg h]
      by_cases hx : x.match_score = s
      · have hy : (y.match_score == s) = false := by
          have : ¬ y.match_score = s := by
            intro hys
            exact h (le_of_eq (hys.trans hx.symm))
          simpa using this
        simp only [List.filter_cons, hy, Bool.false_eq_true, if_false, ih]
      · have hx' : (x.match_score == s) = false := by simpa using hx
        simp only [List.filter_cons, hx', Bool.false_eq_true, if_false, ih]

theorem sortScoreDesc_filter (l : List JobSearchResult) (s : Int) :
    (sortScoreDesc l).filter (fun r => r.match_score == s)
      = l.filter (fun r => r.match_score == s) := by
  induction l with
  | nil => rfl
  | cons x xs ih =>
    calc (insertScoreDesc x (sortScoreDesc xs)).filter (fun r => r.match_score == s)
        = (x :: sortScoreDesc xs).filter (fun r => r.match_score == s) :=
          insertScoreDesc_filter x (sortScoreDesc xs) s
      _ = (x :: xs).filter (fun r => r.match_score == s) := by
          simp only [List.filter_cons, ih]

/-- **C6 (amended).** `_match_jobs_to_analysis` returns the successfully
matched listings sorted by descending match score, ties in source order
(stable): the output is a permutation of the loop's collected list, its
scores are non-increasing, and for every score the equal-score listings
appear exactly in their source order.  `_format_response`, however, does
not re-sort: it renders the listings it is given in their given order. -/
theorem match_jobs_sorted_stable (jobs : List RawJob)
    (llmMatch : RawJob → Except Exn (Int × List String × List String)) :
    ((_match_jobs_to_analysis jobs llmMatch).Pairwise
        (fun a b => b.match_score ≤ a.match_score))
    ∧ (∀ s : Int,
        (_match_jobs_to_analysis jobs llmMatch).filter (fun r => r.match_score == s)
          = (matchedLoop jobs llmMatch).filter (fun r => r.match_score == s))
    ∧ (_match_jobs_to_analysis jobs llmMatch).Perm (matchedLoop jobs llmMatch)
    ∧ (∀ listings : List JobListing, listings ≠ [] →
        formatResponse "job_search" (.jobResults listings)
          = String.intercalate "\n\n" (listings.map formatJobBlock)) := by
  refine ⟨sortScoreDesc_pairwise _, fun s => sortScoreDesc_filter _ s,
    sortScoreDesc_perm _, ?_⟩
  intro listings hne
  have hempty : listings.isEmpty = false := by
    cases listings with
    | nil => exact absurd rfl hne
    | cons a l => rfl
  simp [formatResponse, getListings, hempty]

/-- A raw job used in the C6 witness. -/
def rawJob (t : String) : RawJob :=
  { title := t, company := "Co", location := "L", url := "u",
    description := "d", posted_date := "p" }

/-- A matching oracle for the C6 witness: job "B" scores 90, job "skip"
raises during parsing, everything else scores 50. -/
def scoreOracle : RawJob → Except Exn (Int × List String × List String) :=
  fun j =>
    if j.title == "B" then .ok (90, ["m"], ["x"])
    else if j.title == "skip" then .error (.other "list index out of range")
    else .ok (50, ["m"], ["x"])

/-- Witness for C6 on jobs A, B, skip, C (scores 50, 90, skipped, 50): the
equal-score listings keep the order A before C, and a one-listing response
is formatted as its single block. -/
theorem match_jobs_sorted_stable_witness :
    (_match_jobs_to_analysis [rawJob "A", rawJob "B", rawJob "skip", rawJob "C"]
        scoreOracle).filter (fun r => r.match_score == 50)
      = (matchedLoop [rawJob "A", rawJob "B", rawJob "skip", rawJob "C"]
          scoreOracle).filter (fun r => r.match_score == 50)
    ∧ formatResponse "job_search"
        (.jobResults [{ title := "B", company := "Co", location := "L",
                        match_score := 90, requirements := ["m"] }])
      = String.intercalate "\n\n"
          ([({ title := "B", company := "Co", location := "L",
               match_score := 90, requirements := ["m"] } : JobListing)].map
            formatJobBlock) :=
  ⟨(match_jobs_sorted_stable [rawJob "A", rawJob "B", rawJob "skip", rawJob "C"]
      scoreOracle).2.1 50,
   (match_jobs_sorted_stable [rawJob "A", rawJob "B", rawJob "skip", rawJob "C"]
      scoreOracle).2.2.2 _ (by decide)⟩

/-- Mock listings with scores 10, 90, 50 for the C6 counterexample. -/
def jobA10 : JobListing :=
  { title := "A", company := "CoA", location := "X", match_score := 10,
    requirements := ["s1"] }

def jobB90 : JobListing :=
  { title := "B", company := "CoB", location := "Y", match_score := 90,
    requirements := ["s2"] }

def jobC50 : JobListing :=
  { title := "C", company := "CoC", location := "Z", match_score := 50,
    requirements := ["s3"] }

set_option maxRecDepth 4000 in
/-- Counterexample for C6 as stated: given listings in score order
[10, 90, 50], the Supervisor's formatted job-search output keeps that
order — it equals the block of the score-10 job followed by the 90 and 50
blocks, and differs from the formatting of the descending order
[90, 50, 10]. -/
theorem format_response_does_not_sort :
    formatResponse "job_search" (.jobResults [jobA10, jobB90, jobC50])
      = formatJobBlock jobA10 ++ "\n\n" ++ formatJobBlock jobB90 ++ "\n\n"
          ++ formatJobBlock jobC50
    ∧ formatResponse "job_search" (.jobResults [jobA10, jobB90, jobC50])
      ≠ formatResponse "job_search" (.jobResults [jobB90, jobC50, jobA10]) := by
  constructor
  · decide
  · decide

/-! ## `JobSearchAgent.process` / `search_jobs` (src/agents/job_search.py) -/

/-- Python truthiness of an optional string: `None` and `""` are falsy
(`if not resume_path:`). -/
def pyFalsyOptStr : Option String → Bool
  | none => true
  | some s => s == ""

/-- One entry of `results["top_matches"]` as built by `search_jobs` and read
by `process`. -/
structure TopMatch where
  title : String
  company : String
  location : String
  match_score : Int
  url : String
  posted_date : String
  matching_skills : List String
  skills_to_develop : List String
  description_preview : String
deriving DecidableEq, Repr

/-- The success return of `search_jobs` as read by `process`
(`results.get("top_matches", [])`, `results.get("total_jobs", 0)`,
`results.get("search_criteria", {})`). -/
structure SearchJobsOut where
  top_matches : List TopMatch
  total_jobs : Nat
  search_criteria : List (String × String)
deriving DecidableEq, Repr

/-- The result dict of `JobSearchAgent.process`: either
`{status: "error", message}` or `{status: "success", results: {listings,
total_found, search_criteria}}`. -/
inductive JSResp where
  | error (message : String)
  | success (listings : List JobListing) (total_found : Nat)
      (search_criteria : List (String × String))
deriving DecidableEq, Repr

/-- `str(e)` of the `TypeError` Python raises at the call
`results = self.search_jobs(resume_path)` inside `process`:
`search_jobs` is declared `def search_jobs(self, resume_path: str,
query: str)`, and the call site supplies only `resume_path`. -/
def searchJobsArityError : Exn :=
  .other "JobSearchAgent.search_jobs() missing 1 required positional argument: 'query'"

/-- The call `self.search_jobs(resume_path)` as it occurs in `process`:
Python raises the arity `TypeError` at the call itself, before any of
`search_jobs`'s body runs, so no outcome of the search is reachable from
this call site. -/
def call_search_jobs (_resume_path : String) : Except Exn SearchJobsOut :=
  .error searchJobsArityError

/-- `JobSearchAgent.process`.  `parseQuery` is the `_parse_query` LLM round
trip (its own failure is a raised exception caught by the handler). -/
def jobSearch_process (query : String) (resume_path : Option String)
    (parseQuery : String → Except Exn (String × String)) : JSResp :=
  if pyFalsyOptStr resume_path then
    .error "Resume path is required for job search"
  else
    match parseQuery query with
    | .error e => .error (strExn e)
    | .ok _search_params =>
        match call_search_jobs (resume_path.getD "") with
        | .error e => .error (strExn e)
        | .ok results =>
            .success
              (results.top_matches.map fun job =>
                { title := job.title, company := job.company,
                  location := job.location, match_score := job.match_score,
                  requirements := job.matching_skills, url := job.url,
                  description := job.description_preview })
              results.total_jobs results.search_criteria

/-- **C10.** `JobSearchAgent.process` returns a status-"error" record for
every query, resume path and `_parse_query` outcome: the missing path is a
declared error, a `_parse_query` failure is caught, and on the remaining
path the call `self.search_jobs(resume_path)` omits the required `query`
argument of `search_jobs(self, resume_path, query)`, so it raises and the
handler returns an error record — the success branch is unreachable. -/
theorem job_search_process_always_error (query : String) (resume_path : Option String)
    (parseQuery : String → Except Exn (String × String)) :
    ∃ m, jobSearch_process query resume_path parseQuery = .error m := by
  unfold jobSearch_process
  by_cases hf : pyFalsyOptStr resume_path = true
  · exact ⟨"Resume path is required for job search", by rw [if_pos hf]⟩
  · rw [if_neg hf]
    cases parseQuery query with
    | error e => exact ⟨strExn e, rfl⟩
    | ok p => exact ⟨strExn searchJobsArityError, rfl⟩

/-! ## `CoverLetterAgent.process` (src/agents/cover_letter_generator.py) -/

/-- Python `str.isspace` membership for the ASCII whitespace characters
`str.strip()` removes. -/
def pyIsSpace (c : Char) : Bool :=
  c == ' ' || c == '\t' || c == '\n' || c == '\r' || c == '\x0b' || c == '\x0c'

/-- Python `str.strip()` (ASCII whitespace). -/
def pyStrip (s : String) : String :=
  ⟨((s.data.dropWhile pyIsSpace).reverse.dropWhile pyIsSpace).reverse⟩

/-- The dict returned by `generate_cover_letter`:
`{status: "success", content, paragraphs}` or `{status: "error", message}`. -/
inductive CLGenOut where
  | genSuccess (content opening skills motivation closing : String)
  | genError (message : String)
deriving DecidableEq, Repr

/-- The dict returned by `CoverLetterAgent.process`. -/
inductive CLResp where
  | error (message : String)
  | success (content opening skills motivation closing : String)
deriving DecidableEq, Repr

/-- `CoverLetterAgent.process`.  `gen` is `generate_cover_letter` (résumé
extraction plus the LLM chain); every language-model call of this agent
happens inside it, so the returned Bool records whether the model was
reached at all.  An `Except.error` from `gen` is an exception escaping
`generate_cover_letter` (e.g. from `_extract_resume_details`), caught by
`process`'s handler. -/
def coverLetter_process (query : String) (resume_path : Option String)
    (gen : String → String → Except Exn CLGenOut) : CLResp × Bool :=
  if pyFalsyOptStr resume_path then
    (.error "Resume path is required for cover letter generation", false)
  else
    let job_description := pyStrip query
    if job_description == "" then
      (.error "Job description is required for cover letter generation", false)
    else
      match gen job_description (resume_path.getD "") with
      | .ok (.genSuccess content o s m c) => (.success content o s m c, true)
      | .ok (.genError msg) => (.error msg, true)
      | .error e =>
          (.error ("Failed to generate cover letter: " ++ strExn e), true)

/-- **C7.** `CoverLetterAgent.process` with a missing resume path, or with a
query that strips to the empty string, returns a status-"error" record and
never reaches the language model; both are declared errors, not raised
exceptions. -/
theorem cover_letter_missing_inputs (query : String) (resume_path : Option String)
    (gen : String → String → Except Exn CLGenOut) :
    (resume_path = none →
        coverLetter_process query resume_path gen =
          (.error "Resume path is required for cover letter generation", false))
    ∧ (pyStrip query = "" →
        ∃ m, coverLetter_process query resume_path gen = (.error m, false)) := by
  constructor
  · rintro rfl
    rfl
  · intro hq
    by_cases hf : pyFalsyOptStr resume_path = true
    · exact ⟨"Resume path is required for cover letter generation", by
        unfold coverLetter_process
        rw [if_pos hf]⟩
    · refine ⟨"Job description is required for cover letter generation", ?_⟩
      unfold coverLetter_process
      rw [if_neg hf]
      have : (pyStrip query == "") = true := by
        rw [hq]
        rfl
      simp only [this, if_true]

/-- Witness for C7 at an all-whitespace query with a resume path present:
error record, model untouched. -/
theorem cover_letter_missing_inputs_witness :
    pyStrip "   " = ""
    ∧ ∃ m, coverLetter_process "   " (some "uploads/resume.pdf")
        (fun _ _ => .ok (.genSuccess "c" "o" "s" "m" "z")) = (.error m, false) :=
  ⟨by decide,
   (cover_letter_missing_inputs "   " (some "uploads/resume.pdf")
      (fun _ _ => .ok (.genSuccess "c" "o" "s" "m" "z"))).2 (by decide)⟩

/-! ## `ResumeAnalyzerAgent.analyze_resume` (src/agents/resume_analyzer.py) -/

/-- `_extract_text_from_pdf`: `except Exception as e: ... raise` — any
failure of the PyPDF2 read (the oracle `pdfRead`) is logged and re-raised
unchanged. -/
def _extract_text_from_pdf (pdfRead : Except Exn String) : Except Exn String :=
  match pdfRead with
  | .ok text => .ok text
  | .error e => .error e

/-- The dict `analyze_resume` returns: the compiled insights record (whose
content comes from the LLM chain and the spaCy entity pass — the oracle's
payload `α`) or the error record `{"error": "Could not fully analyze
resume", "details": str(e), "timestamp": ...}` (the wall-clock timestamp
is not modelled). -/
inductive AnalyzeOut (α : Type) where
  | insights (record : α)
  | errorRecord (error details : String)
deriving DecidableEq, Repr

/-- `analyze_resume`: the call `self._extract_text_from_pdf(resume_path)`
runs before the `try:` block, so its exception propagates to the caller;
the chain invocation, spaCy pass and record assembly (`analyzeChain`) run
inside the `try:` and their failure becomes the error record. -/
def analyze_resume {α : Type} (pdfRead : Except Exn String)
    (analyzeChain : String → Except Exn α) : Except Exn (AnalyzeOut α) :=
  match _extract_text_from_pdf pdfRead with
  | .error e => .error e
  | .ok text =>
      match analyzeChain text with
      | .ok record => .ok (.insights record)
      | .error e => .ok (.errorRecord "Could not fully analyze resume" (strExn e))

/-- **C5 (amended).** A failure of the LLM-output parsing (or anything else
inside `analyze_resume`'s `try:`) is caught and returned as a record whose
"error" key is set; a failure of the PDF text extraction, however, is
re-raised by `_extract_text_from_pdf` and propagates out of
`analyze_resume` — text extraction happens before the `try:` block. -/
theorem analyze_resume_error_flow {α : Type} (text : String)
    (analyzeChain : String → Except Exn α) :
    (∀ e, analyzeChain text = .error e →
        analyze_resume (.ok text) analyzeChain
          = .ok (.errorRecord "Could not fully analyze resume" (strExn e)))
    ∧ (∀ e, (analyze_resume (.error e) analyzeChain : Except Exn (AnalyzeOut α))
        = .error e) := by
  constructor
  · intro e he
    simp only [analyze_resume, _extract_text_from_pdf, he]
  · intro e
    rfl

/-- Witness for C5: a chain failure on the extracted text "resume text"
comes back as the error record, not as an exception. -/
theorem analyze_resume_error_flow_witness :
    analyze_resume (.ok "resume text")
        (fun _ : String => (.error (.other "Invalid json output") : Except Exn String))
      = .ok (.errorRecord "Could not fully analyze resume" "Invalid json output") :=
  (analyze_resume_error_flow "resume text"
      (fun _ => .error (.other "Invalid json output"))).1
    (.other "Invalid json output") rfl

/-- Counterexample for C5 as stated: a PDF-extraction failure (here PyPDF2's
"EOF marker not found") is raised to the caller of `analyze_resume`
instead of being returned as an error record. -/
theorem analyze_resume_extraction_raises :
    (analyze_resume (.error (.other "EOF marker not found"))
        (fun t : String => .ok t) : Except Exn (AnalyzeOut String))
      = .error (.other "EOF marker not found")
    ∧ (analyze_resume (.error (.other "EOF marker not found"))
        (fun t : String => .ok t) : Except Exn (AnalyzeOut String)).isOk = false := by
  exact ⟨rfl, rfl⟩

/-! ## Config (src/config.py), forms (src/app/forms.py) and routes
(src/app/routes.py)

The session dict is modelled as a record of exactly the keys the routes
read or write.  `job_assistant.set_resume` (file check, analysis, json
serialisation by `store_resume_data`) is the oracle `setResume`, returning
the serialized insights or raising. -/

/-- `Config.MAX_CONTENT_LENGTH`: the framework-enforced request-body limit,
16 MB. -/
def MAX_CONTENT_LENGTH : Nat := 16 * 1024 * 1024

/-- The basename of `Config.UPLOAD_FOLDER`. -/
def UPLOAD_FOLDER : String := "uploads"

/-- `os.path.join(UPLOAD_FOLDER, filename)`. -/
def joinPath (dir file : String) : String := dir ++ "/" ++ file

/-- The characters after the last dot, when the name contains a dot. -/
def extAfterLastDot : List Char → Option (List Char)
  | [] => none
  | c :: cs =>
      match extAfterLastDot cs with
      | some e => some e
      | none => if c == '.' then some cs else none

/-- The extension test applied by the `FileAllowed(["pdf"], "PDF files
only!")` validator declared on `ResumeUploadForm.resume` in
src/app/forms.py: the part after the last dot, lower-cased, must be
"pdf". -/
def fileAllowedPdf (filename : String) : Bool :=
  match extAfterLastDot filename.data with
  | some ext => ext.map pyLower == "pdf".data
  | none => false

/-- The session, restricted to the keys the routes touch.  `resume_path`
is read by `chat_message` but written by no route. -/
structure Session where
  uploaded_resume_path : Option String := none
  resume_insights : Option String := none
  resume_filepath : Option String := none
  analysis_started : Option Nat := none
  resume_path : Option String := none
deriving DecidableEq, Repr

/-- A fresh session. -/
def emptySession : Session := {}

/-- The JSON body of `/upload_resume`. -/
structure UploadJson where
  success : Bool
  message : Option String := none
  error : Option String := none
deriving DecidableEq, Repr

/-- `/upload_resume` (POST).  `file` is the filename of
`request.files["resume"]` (`none` when the key is absent), `secureFilename`
is werkzeug's `secure_filename`, `now` is `time.time()`.  Returns the JSON
body, the updated session, and the path `file.save` wrote to (when
reached).  The endpoint validates only that a file with a non-empty name
is present — it performs no file-type check. -/
def upload_resume (s : Session) (file : Option String) (now : Nat)
    (secureFilename : String → String)
    (setResume : String → Except Exn String) :
    UploadJson × Session × Option String :=
  match file with
  | none => ({ success := false, error := some "No resume file provided." }, s, none)
  | some filename =>
    if filename == "" then
      ({ success := false, error := some "No selected file." }, s, none)
    else
      let filepath := joinPath UPLOAD_FOLDER (secureFilename filename)
      let s1 := { s with resume_filepath := some filepath,
                         analysis_started := some now }
      match setResume filepath with
      | .ok insightsJson =>
          ({ success := true, message := some "Resume uploaded successfully" },
           { s1 with uploaded_resume_path := some filepath,
                     resume_insights := some insightsJson }, some filepath)
      | .error e =>
          ({ success := false, error := some (strExn e) }, s1, some filepath)

/-- The upload branch of `index` ("/", POST).  It runs only when
`upload_form.validate_on_submit()` passes — per the validators declared on
`ResumeUploadForm` (`FileRequired()`, `FileAllowed(["pdf"])`), a file must
be present and carry the pdf extension; the file is then saved, analyzed
and stored in the session (redirect to the chat page on success).  Returns
the updated session, the saved path, and whether the redirect happened. -/
def index_upload (s : Session) (file : Option String)
    (secureFilename : String → String)
    (setResume : String → Except Exn String) :
    Session × Option String × Bool :=
  match file with
  | none => (s, none, false)
  | some filename =>
      if fileAllowedPdf filename then
        let filepath := joinPath UPLOAD_FOLDER (secureFilename filename)
        match setResume filepath with
        | .ok insightsJson =>
            ({ s with uploaded_resume_path := some filepath,
                      resume_insights := some insightsJson }, some filepath, true)
        | .error _ => (s, some filepath, false)
      else (s, none, false)

/-- The JSON body of `/chat/message`. -/
structure ChatJson where
  response : Option String := none
  intent : Option String := none
  agent : Option String := none
  error : Option String := none
deriving DecidableEq, Repr

/-- The `except Exception as e` handler of `chat_message`: HTTP 500 with
intent "error". -/
def chatErrorJson (e : Exn) : ChatJson × Nat :=
  ({ error := some (strExn e),
     response := some "An error occurred while processing your request.",
     intent := some "error", agent := none }, 500)

/-- `/chat/message` (POST).  Reads `session.get('resume_path')` — a key no
route ever writes.  A falsy value raises `ValueError("No resume loaded.
Please upload your resume first.")`; a query without the substring "job"
(lower-cased) evaluates the undefined name `chat_agent` and raises a
`NameError`; both land in the handler.  Otherwise the query goes to
`job_assistant.process_query` after `set_resume`. -/
def chat_message (s : Session) (query : String) (formValid : Bool)
    (setResume : String → Except Exn String) (O : AgentOracle) :
    ChatJson × Nat :=
  if !formValid then
    ({ error := some "Invalid form submission" }, 400)
  else if pyFalsyOptStr s.resume_path then
    chatErrorJson (.other "No resume loaded. Please upload your resume first.")
  else
    let rp := s.resume_path.getD ""
    match setResume rp with
    | .error e => chatErrorJson e
    | .ok _insights =>
        if containsSub "job".data (lowerQuery query) then
          let pq := (process_query O (some rp) query).1
          ({ response := some pq.response, intent := some pq.intent,
             agent := pq.agent, error := pq.error }, 200)
        else
          chatErrorJson (.other "name 'chat_agent' is not defined")

/-- **C2.** Evaluation at the claim's scenario: from a fresh session, a
successful `/upload_resume` of "resume.pdf" returns `{success: true}` and
stores non-null `resume_insights` — but it writes the path under the
session key `uploaded_resume_path`, leaving `resume_path` unset, so the
subsequent `/chat/message` with "find me a software engineer job" takes
the no-resume error path: intent "error", HTTP 500, never "job_search". -/
theorem chat_after_upload_returns_error_intent :
    (upload_resume emptySession (some "resume.pdf") 0 (fun n => n)
        (fun _ => .ok "{insights}")).1
      = { success := true, message := some "Resume uploaded successfully" }
    ∧ (upload_resume emptySession (some "resume.pdf") 0 (fun n => n)
        (fun _ => .ok "{insights}")).2.1.resume_insights = some "{insights}"
    ∧ (upload_resume emptySession (some "resume.pdf") 0 (fun n => n)
        (fun _ => .ok "{insights}")).2.1.resume_path = none
    ∧ chat_message
        (upload_resume emptySession (some "resume.pdf") 0 (fun n => n)
          (fun _ => .ok "{insights}")).2.1
        "find me a software engineer job" true (fun _ => .ok "{insights}") okOracle
      = ({ error := some "No resume loaded. Please upload your resume first.",
           response := some "An error occurred while processing your request.",
           intent := some "error", agent := none }, 500) := by
  exact ⟨rfl, rfl, rfl, rfl⟩

/-- **C9 (amended).** The index-page form accepts only files whose extension
is pdf (per its declared validators) before saving anything; the
`/upload_resume` endpoint performs no file-type validation — any file with
a non-empty name is saved to the upload folder, and failure is reported
only if the analysis raises afterwards; the 16 MB cap is the framework's
`MAX_CONTENT_LENGTH` configuration, not endpoint code. -/
theorem upload_validation_behaviour (s : Session) (file : Option String)
    (now : Nat) (secureFilename : String → String)
    (setResume : String → Except Exn String) :
    ((index_upload s file secureFilename setResume).2.1 ≠ none →
        ∃ f, file = some f ∧ fileAllowedPdf f = true)
    ∧ (∀ f, file = some f → f ≠ "" →
        (upload_resume s file now secureFilename setResume).2.2
          = some (joinPath UPLOAD_FOLDER (secureFilename f)))
    ∧ MAX_CONTENT_LENGTH = 16 * 1024 * 1024 := by
  refine ⟨?_, ?_, rfl⟩
  · intro hsaved
    cases file with
    | none => exact absurd rfl hsaved
    | some f =>
      refine ⟨f, rfl, ?_⟩
      by_cases hp : fileAllowedPdf f = true
      · exact hp
      · exfalso
        apply hsaved
        simp only [index_upload, hp, Bool.false_eq_true, if_false]
  · rintro f rfl hne
    have hbeq : (f == "") = false := by
      cases hb : f == ""
      · rfl
      · exact absurd (by simpa using hb) hne
    simp only [upload_resume, hbeq, Bool.false_eq_true, if_false]
    cases setResume (joinPath UPLOAD_FOLDER (secureFilename f)) <;> rfl

/-- Witness for C9: a pdf upload through the form is saved, and
"resume.pdf" is saved by `/upload_resume` at "uploads/resume.pdf". -/
theorem upload_validation_behaviour_witness :
    (upload_resume emptySession (some "resume.pdf") 0 (fun n => n)
        (fun _ => .ok "{insights}")).2.2 = some "uploads/resume.pdf" :=
  (upload_validation_behaviour emptySession (some "resume.pdf") 0 (fun n => n)
      (fun _ => .ok "{insights}")).2.1 "resume.pdf" rfl (by decide)

/-- Counterexample for C9 as stated: `/upload_resume` saves the non-PDF
upload "notes.txt" to "uploads/notes.txt" even though its analysis then
fails — the endpoint rejects nothing by file type. -/
theorem upload_resume_accepts_non_pdf :
    (upload_resume emptySession (some "notes.txt") 0 (fun n => n)
        (fun _ => .error (.other "EOF marker not found"))).2.2
      = some "uploads/notes.txt"
    ∧ fileAllowedPdf "notes.txt" = false := by
  exact ⟨rfl, by decide⟩

end CareerStack
